import Mathlib

/-!
Shallow embedding of the Verum Omnis forensic engine (TypeScript sources:
src/services/geminiService.ts, src/utils/storage.ts, src/utils/crypto.ts,
src/App.tsx, src/types.ts).

Browser / platform primitives that live outside the repository (Web Crypto
SHA-512, Date locale rendering, Number.toFixed, URL.createObjectURL) are
modelled as explicit function parameters, bundled in a `Platform` record:
the repository's own logic is embedded verbatim, parameterized over them.
Machine timestamps (JavaScript millisecond numbers) are modelled as `Int`;
GPS coordinates as `ℚ`.
-/

namespace VerumOmnis

/-- Model of JavaScript `String.prototype.startsWith` (character-list prefix
test), kept kernel-reducible. -/
def jsStartsWith (s pre : String) : Bool :=
  pre.data.isPrefixOf s.data

/-- Model of JavaScript `String.prototype.toLowerCase` (ASCII case folding,
which is all the extension table needs). -/
def jsToLower (s : String) : String :=
  ⟨s.data.map Char.toLower⟩

/-- Model of JavaScript `String.prototype.substring(0, n)`. -/
def jsTake (n : Nat) (s : String) : String :=
  ⟨s.data.take n⟩

/-- JavaScript template-literal rendering of a possibly-undefined string:
`undefined` interpolates as the text "undefined". -/
def showOptStr : Option String → String
  | some s => s
  | none => "undefined"

/-- Splitter backing the model of JavaScript `split(sep)` for a one-character
separator; `""` splits to `[""]`, exactly as in JavaScript. -/
def jsSplitCharAux (sep : Char) : List Char → List (List Char)
  | [] => [[]]
  | c :: cs =>
    if c == sep then [] :: jsSplitCharAux sep cs
    else
      match jsSplitCharAux sep cs with
      | [] => [[c]]
      | h :: t => (c :: h) :: t

/-- Model of JavaScript `String.prototype.split` with a one-character
separator. -/
def jsSplitOnChar (sep : Char) (s : String) : List String :=
  (jsSplitCharAux sep s.data).map (fun cs => ⟨cs⟩)

/-- The lines of a report (split on the newline character); an observer used
to state properties about individual report lines. -/
def linesOf (report : String) : List String :=
  jsSplitOnChar '\n' report

/-- The first report line that starts with "Contradictions:" — the
contradictions row of the dishonesty-detection matrix. -/
def contradictionLineOf (report : String) : Option String :=
  (linesOf report).find? (fun l => jsStartsWith l "Contradictions:")

/-- GPS coordinates (src/types.ts `GeoLocation`). -/
structure GeoLocation where
  lat : ℚ
  lng : ℚ
  accuracy : ℚ
deriving DecidableEq

/-- Device descriptor strings (src/types.ts `DeviceInfo`). -/
structure DeviceInfo where
  userAgent : String
  platform : String
  language : String
deriving DecidableEq

/-- Evidence kind (src/types.ts `EvidenceType`, a string-valued enum). -/
inductive EvidenceType
  | Photo
  | Video
  | Document
  | Audio
  | Text
deriving DecidableEq

/-- The string value of an `EvidenceType` member, as interpolated by
template literals. -/
def EvidenceType.toStr : EvidenceType → String
  | .Photo => "PHOTO"
  | .Video => "VIDEO"
  | .Document => "DOCUMENT"
  | .Audio => "AUDIO"
  | .Text => "TEXT"

/-- Artifact content (src/types.ts: `File | Blob | string`); a `File` carries
a byte size observable by `content.size`, a `Blob` does too but fails the
`instanceof File` test, and text content is a plain string. -/
inductive Content
  | file (size : Nat)
  | blob (size : Nat)
  | str (s : String)
deriving DecidableEq

/-- One chain-of-custody entry (src/types.ts `CustodyEntry`). -/
structure CustodyEntry where
  timestamp : Int
  action : String
  actor : String
  hash : String
  location : Option GeoLocation
  notes : Option String
deriving DecidableEq

/-- An evidence artifact (src/types.ts `EvidenceArtifact`). -/
structure EvidenceArtifact where
  id : String
  type : EvidenceType
  content : Content
  filename : Option String
  mimeType : String
  timestamp : Int
  gpsCoordinates : Option GeoLocation
  sessionLocation : Option GeoLocation
  deviceInfo : DeviceInfo
  chainOfCustody : List CustodyEntry
  cryptographicHash : String
  previewUrl : Option String
deriving DecidableEq

/-- The browser primitives the engine calls but the repository does not
implement: `sha512` delegates to Web Crypto, dates render through the
device locale, numbers format through `Number.prototype.toFixed`. -/
structure Platform where
  digest : String → String
  localeString : Int → String
  localeDateString : Int → String
  localeTimeString : Int → String
  toFixed2 : ℚ → String
  toFixed4 : ℚ → String
  numToStr : ℚ → String

/-- src/services/geminiService.ts `VERSION_STRING`. -/
def VERSION_STRING : String := "Verum Omnis v5.2.7"

/-- src/services/geminiService.ts `CONSTITUTION_HASH`. -/
def CONSTITUTION_HASH : String :=
  "45f981b0f66421f8d83d61edea66bf15c9eb5b7663690dc9296ed555def0911"

/-- The extension-to-MIME table of Brain 1 (`mimeMap`). -/
def mimeMap : String → Option String
  | "pdf" => some "application/pdf"
  | "jpg" => some "image/jpeg"
  | "jpeg" => some "image/jpeg"
  | "png" => some "image/png"
  | "txt" => some "text/plain"
  | "mp4" => some "video/mp4"
  | "mp3" => some "audio/mpeg"
  | "wav" => some "audio/wav"
  | "json" => some "application/json"
  | _ => none

/-- `ev.filename?.split('.').pop()?.toLowerCase()` — the lowercased final
dot-segment of the filename, absent when the filename is absent. -/
def extOf (ev : EvidenceArtifact) : Option String :=
  ev.filename.map (fun f => jsToLower ((jsSplitOnChar '.' f).getLastD ""))

/-- The CRITICAL mismatch line Brain 1 emits for one artifact, when its
extension is known, maps to an expected MIME family, and the declared MIME
type does not start with that family. -/
def brain1Line (ev : EvidenceArtifact) : Option String :=
  match extOf ev with
  | none => none
  | some ext =>
    if ext = "" then none
    else
      match mimeMap ext with
      | none => none
      | some expected =>
        if jsStartsWith ev.mimeType expected then none
        else some ("[CRITICAL] MIME/Extension Mismatch: " ++ showOptStr ev.filename ++
          " (." ++ ext ++ ") identified as " ++ ev.mimeType ++ ". Possible Tamper.\n")

/-- `contradictionsFound` at the end of Brain 1's loop. -/
def brain1Count (evidence : List EvidenceArtifact) : Nat :=
  (evidence.filterMap brain1Line).length

/-- Brain 1: Contradiction Engine (`runBrain1`). -/
def runBrain1 (evidence : List EvidenceArtifact) : String :=
  "BRAIN 1 (CONTRADICTION): ACTIVE\n" ++
  String.join (evidence.filterMap brain1Line) ++
  (if brain1Count evidence = 0 then
    "No structural contradictions detected in metadata layer.\n"
  else
    "\nWARNING: " ++ toString (brain1Count evidence) ++
      " contradictions detected. Integrity suspicious.\n")

/-- `ev.content instanceof File ? ev.content.size : 'N/A'`. -/
def contentSizeStr : Content → String
  | .file n => toString n
  | _ => "N/A"

/-- The per-artifact block of Brain 2. -/
def brain2Entry (now : Int) (ev : EvidenceArtifact) : String :=
  "> Artifact: " ++ showOptStr ev.filename ++ "\n" ++
  ("  SIZE: " ++ contentSizeStr ev.content ++ " bytes\n") ++
  ("  HASH: " ++ jsTake 16 ev.cryptographicHash ++ "...\n") ++
  ("  TYPE: " ++ ev.mimeType ++ "\n") ++
  (if ev.timestamp > now + 5000 then "  [FLAG] Timestamp is in the future.\n" else "") ++
  "  INTEGRITY: PRESERVED\n\n"

/-- Brain 2: Document Forensics (`runBrain2`); `now` is the value of the
`Date.now()` call made during the run. -/
def runBrain2 (now : Int) (evidence : List EvidenceArtifact) : String :=
  "BRAIN 2 (FORENSICS): ACTIVE\n" ++
  String.join (evidence.map (brain2Entry now))

/-- Brain 3: Comms & Integrity (`runBrain3`). -/
def runBrain3 (evidence : List EvidenceArtifact) : String :=
  "BRAIN 3 (COMMS INTEGRITY): ACTIVE\n" ++
  (if evidence.length > 1 then
    "Continuity Check: Multiple artifacts present. Sequence validated by timestamp sort.\n"
  else
    "Continuity Check: Single artifact. Cannot verify conversation flow.\n")

/-- Brain 4: Linguistics (`runBrain4`), a pure capability-boundary stub. -/
def runBrain4 : String :=
  "BRAIN 4 (LINGUISTICS): OFFLINE\n- Status: Insufficient local NLP compute for behavioral profiling.\n- Action: Upload to Legal Assistant for pattern matching.\n"

/-- `evidence.filter(e => e.sessionLocation).map(e => e.sessionLocation)` —
Brain 5's `geoLocations` array. -/
def sessionLocs (evidence : List EvidenceArtifact) : List (Option GeoLocation) :=
  (evidence.filter (fun e => e.sessionLocation.isSome)).map (fun e => e.sessionLocation)

/-- The session location Brain 5 reports: `geoLocations[0]` when the array is
nonempty. -/
def brain5Loc (evidence : List EvidenceArtifact) : Option GeoLocation :=
  match sessionLocs evidence with
  | [] => none
  | locOpt :: _ => locOpt

/-- Brain 5: Timeline & Geolocation (`runBrain5`). The JavaScript
`[...evidence].sort((a,b) => a.timestamp - b.timestamp)` is a stable
ascending sort, modelled by `List.insertionSort` (stable sorts by the same
key agree on their output). -/
def runBrain5 (p : Platform) (evidence : List EvidenceArtifact) : String :=
  match List.insertionSort (fun a b => a.timestamp ≤ b.timestamp) evidence with
  | [] => "BRAIN 5 (TIMELINE & GEO): ACTIVE\n" ++ "No data.\n"
  | first :: rest =>
    "BRAIN 5 (TIMELINE & GEO): ACTIVE\n" ++
    ("Timeline Span: " ++ p.localeString first.timestamp ++ " to " ++
      p.localeString (List.getLastD rest first).timestamp ++ "\n") ++
    (match sessionLocs evidence with
     | [] => "Session Jurisdiction: UNKNOWN (GPS Data Missing)\n"
     | some loc :: _ =>
       "Session Jurisdiction: Lat " ++ p.toFixed4 loc.lat ++ ", Lng " ++
         p.toFixed4 loc.lng ++ " (Accuracy: " ++ p.numToStr loc.accuracy ++ "m)\n"
     | none :: _ =>
       "Session Jurisdiction: Lat undefined, Lng undefined (Accuracy: undefinedm)\n")

/-- Brain 6: Financial (`runBrain6`), a pure capability-boundary stub. -/
def runBrain6 : String :=
  "BRAIN 6 (FINANCIAL): OFFLINE\n- Status: No Excel/CSV parser loaded in immutable core.\n"

/-- `evidence.find(e => e.sessionLocation)?.sessionLocation` — the session
location Brain 7 maps to a jurisdiction. -/
def brain7Loc (evidence : List EvidenceArtifact) : Option GeoLocation :=
  (evidence.find? (fun e => e.sessionLocation.isSome)).bind (fun e => e.sessionLocation)

/-- Brain 7: Legal Mapping (`runBrain7`). -/
def runBrain7 (p : Platform) (evidence : List EvidenceArtifact) : String :=
  "BRAIN 7 (LEGAL MAPPING): ACTIVE\n" ++
  (match brain7Loc evidence with
   | some loc =>
     if 22 < loc.lat ∧ loc.lat < 26 ∧ 51 < loc.lng ∧ loc.lng < 57 then
       "Detected Jurisdiction: UNITED ARAB EMIRATES (Based on Coords)\n" ++
         "Relevant Laws: Federal Law 32/2021 (Cybercrime), Article 84.\n"
     else if -35 < loc.lat ∧ loc.lat < -22 ∧ 16 < loc.lng ∧ loc.lng < 33 then
       "Detected Jurisdiction: SOUTH AFRICA (Based on Coords)\n" ++
         "Relevant Laws: ECT Act 25 of 2002.\n"
     else
       "Detected Jurisdiction: INTERNATIONAL / UNKNOWN (Lat: " ++ p.toFixed2 loc.lat ++ ")\n"
   | none => "Jurisdiction: UNDETERMINED (No GPS)\n")

/-- Brain 8: Audio/Voice (`runBrain8`). -/
def runBrain8 (evidence : List EvidenceArtifact) : String :=
  "BRAIN 8 (AUDIO/VOICE): OFFLINE\n- " ++
  toString ((evidence.filter
    (fun e => e.type == EvidenceType.Audio || e.type == EvidenceType.Video)).length) ++
  " AV artifacts detected.\n- Deepfake analysis requires Cloud Uplink.\n"

/-- Brain 9: R&D (`runBrain9`), static non-voting advisory text. -/
def runBrain9 : String :=
  "BRAIN 9 (R&D): NON-VOTING ADVISORY\n- Hypothesis: Cross-reference metadata with external weather logs.\n- Recommendation: Verify SHA-512 hashes manually via independent terminal.\n"

/-- The report header (`runConstitutionalAnalysis` step 1); `now` is the
`Date.now()` instant of the run, rendered through the device locale. -/
def headerBlock (p : Platform) (caseId : String) (now : Int) : String :=
  VERSION_STRING ++ " â€” Constitutional Deployment Validator\n" ++
  ("CASE ID: " ++ caseId ++ "\n") ++
  ("DATE: " ++ p.localeString now ++ " (Local Device Time)\n") ++
  "MODE: OFFLINE STRICT (NO API)\n" ++
  "------------------------------------------------------------\n\n"

/-- The constitutional self-test block (`runConstitutionalAnalysis` step 2). -/
def complianceBlock : String :=
  "CONSTITUTIONAL COMPLIANCE TESTS:\n" ++
  "----------------------------------------\n" ++
  ("Test 1: Constitution Hash Verification... PASS [" ++ jsTake 8 CONSTITUTION_HASH ++ "...]\n") ++
  "Test 2: Guardianship Treaty... PASS\n" ++
  "Test 3: Zero-Trust Architecture... PASS\n" ++
  "Test 4: Offline Enforcement... PASS\n\n"

/-- One evidence-manifest row per artifact, in original ingestion order. -/
def manifestEntries (evidence : List EvidenceArtifact) : String :=
  String.join (evidence.map (fun ev =>
    "[ID:" ++ jsTake 8 ev.id ++ "] " ++ showOptStr ev.filename ++ " (" ++
      ev.type.toStr ++ ") | SHA: " ++ ev.cryptographicHash ++ "\n"))

/-- The evidence manifest section (`runConstitutionalAnalysis` step 3). -/
def manifestBlock (evidence : List EvidenceArtifact) : String :=
  "1. EVIDENCE MANIFEST & ANCHORING\n" ++
  "--------------------------------\n" ++
  manifestEntries evidence ++
  "\n"

/-- The nine module sections in fixed order 1→9
(`runConstitutionalAnalysis` step 4). -/
def brainsBlock (p : Platform) (now : Int) (evidence : List EvidenceArtifact) : String :=
  "2. 9-BRAIN ARCHITECTURE OUTPUTS\n" ++
  "-------------------------------\n" ++
  (runBrain1 evidence ++ "\n") ++
  (runBrain2 now evidence ++ "\n") ++
  (runBrain3 evidence ++ "\n") ++
  (runBrain4 ++ "\n") ++
  (runBrain5 p evidence ++ "\n") ++
  (runBrain6 ++ "\n") ++
  (runBrain7 p evidence ++ "\n") ++
  (runBrain8 evidence ++ "\n") ++
  (runBrain9 ++ "\n\n")

/-- The Triple Verification narrative (`runConstitutionalAnalysis` step 5). -/
def tripleVerificationBlock : String :=
  "3. TRIPLE VERIFICATION DOCTRINE\n" ++
  "-------------------------------\n" ++
  "A) THESIS: Evidence suggests a collection of digital artifacts has been preserved.\n" ++
  "B) ANTITHESIS: Artifacts could be fabricated if source device was compromised before hashing.\n" ++
  "C) SYNTHESIS: Chain of custody valid from ingestion point. Content veracity: VERIFIED_DIGITALLY_ONLY.\n\n" ++
  "TV_THESIS: PASS\n" ++
  "TV_ANTITHESIS: PASS (Risks Acknowledged)\n" ++
  "TV_SYNTHESIS: PASS\n" ++
  "OVERALL: PASS\n\n"

/-- The dishonesty detection matrix (`runConstitutionalAnalysis` step 6);
every line of it, including the contradictions count, is a fixed literal. -/
def dishonestyMatrixBlock : String :=
  "4. DISHONESTY DETECTION MATRIX\n" ++
  "------------------------------\n" ++
  "Contradictions: 0 detected in metadata.\n" ++
  "Omissions: Cannot determine without external reference.\n" ++
  "Tampering: None detected by Brain 2.\n\n"

/-- The full report body accumulated before the self-hash is taken
(everything `runConstitutionalAnalysis` appends up to and including the
"SEALED ORIGINAL" line). -/
def composeBody (p : Platform) (evidence : List EvidenceArtifact)
    (caseId : String) (now : Int) : String :=
  headerBlock p caseId now ++
  complianceBlock ++
  manifestBlock evidence ++
  brainsBlock p now evidence ++
  tripleVerificationBlock ++
  dishonestyMatrixBlock ++
  "SEALED ORIGINAL - VERUM OMNIS\n"

/-- `runConstitutionalAnalysis` (src/services/geminiService.ts): the body is
assembled, hashed, and the hash appended as the `SHA-512:` terminal line. -/
def runConstitutionalAnalysis (p : Platform) (evidence : List EvidenceArtifact)
    (caseId : String) (now : Int) : String :=
  composeBody p evidence caseId now ++
  ("SHA-512:" ++ p.digest (composeBody p evidence caseId now) ++ "\n")

/-- A persisted case (src/utils/storage.ts `CaseRecord`). -/
structure CaseRecord where
  id : String
  name : String
  timestamp : Int
  report : String
  evidence : List EvidenceArtifact
  caseHash : String
deriving DecidableEq

/-- The "Super Hash" seal computed by `saveCase`:
`sha512(evidence.map(e => e.cryptographicHash).join("") + sha512(report))`. -/
def caseSealOf (p : Platform) (report : String) (evidence : List EvidenceArtifact) : String :=
  p.digest (String.join (evidence.map (fun e => e.cryptographicHash)) ++ p.digest report)

/-- The seal formula as the specification words it: the concatenated
evidence hashes are first digested into `evidenceDigest`, then
`digest(evidenceDigest ++ reportDigest)` is taken. Stated from the spec,
for comparison against the source's `caseSealOf`. -/
def caseSealSpecFormula (p : Platform) (report : String)
    (evidence : List EvidenceArtifact) : String :=
  p.digest (p.digest (String.join (evidence.map (fun e => e.cryptographicHash))) ++
    p.digest report)

/-- The record `saveCase` builds before persisting (`name || default`
falls back on the empty string, the only falsy string). -/
def mkCaseRecord (p : Platform) (caseId name report : String)
    (evidence : List EvidenceArtifact) (now : Int) : CaseRecord :=
  { id := caseId
    name := if name = "" then "Case " ++ jsTake 8 caseId else name
    timestamp := now
    report := report
    evidence := evidence
    caseHash := caseSealOf p report evidence }

/-- IndexedDB `store.put` on an object store keyed by `id`: insert, or
replace the record bearing the same key. -/
def putRecord (store : List CaseRecord) (r : CaseRecord) : List CaseRecord :=
  if store.any (fun c => c.id == r.id) then
    store.map (fun c => if c.id == r.id then r else c)
  else
    store ++ [r]

/-- `saveCase` (src/utils/storage.ts): build the sealed record and `put` it;
returns the record (resolved to the caller) and the updated store. -/
def saveCase (p : Platform) (store : List CaseRecord) (caseId name report : String)
    (evidence : List EvidenceArtifact) (now : Int) : CaseRecord × List CaseRecord :=
  let r := mkCaseRecord p caseId name report evidence now
  (r, putRecord store r)

/-- `handleSaveCase` (src/App.tsx): saves under a locale-derived name; the
evidence list is passed through to `saveCase` verbatim. -/
def handleSaveCase (p : Platform) (store : List CaseRecord) (caseId report : String)
    (evidenceList : List EvidenceArtifact) (now : Int) : CaseRecord × List CaseRecord :=
  saveCase p store caseId
    ("Case " ++ p.localeDateString now ++ " " ++ p.localeTimeString now)
    report evidenceList now

/-- `file.type.startsWith(..)` classification in `handleFileUpload`. -/
def typeForMime (m : String) : EvidenceType :=
  let t := EvidenceType.Document
  let t := if jsStartsWith m "image/" then EvidenceType.Photo else t
  let t := if jsStartsWith m "video/" then EvidenceType.Video else t
  if jsStartsWith m "audio/" then EvidenceType.Audio else t

/-- One uploaded file as the ingestion collaborator delivers it. -/
structure FileUpload where
  name : String
  mimeType : String
  size : Nat
deriving DecidableEq

/-- One iteration of `handleFileUpload` (src/App.tsx): hash (computed by the
platform from the file bytes), classify, attach the session location, and
open the chain of custody with the single "CAPTURED" entry. `id` is the
generated opaque id, `url` the object URL the browser allocates. -/
def ingestFile (id hash url : String) (f : FileUpload) (sess : Option GeoLocation)
    (dev : DeviceInfo) (now : Int) : EvidenceArtifact :=
  { id := id
    type := typeForMime f.mimeType
    content := Content.file f.size
    filename := some f.name
    mimeType := f.mimeType
    timestamp := now
    gpsCoordinates := none
    sessionLocation := sess
    deviceInfo := dev
    chainOfCustody := [{ timestamp := now
                         action := "CAPTURED"
                         actor := "USER"
                         hash := hash
                         location := sess
                         notes := none }]
    cryptographicHash := hash
    previewUrl := some url }

/-- `handleLoadCase`'s per-artifact hydration: re-derive the object URL for
file/blob content, `undefined` for text content; every other field is
spread through unchanged. `mkUrl` models `URL.createObjectURL`. -/
def hydrate (mkUrl : Content → String) (e : EvidenceArtifact) : EvidenceArtifact :=
  { e with previewUrl :=
      match e.content with
      | Content.str _ => none
      | c => some (mkUrl c) }

/-- The app state `handleLoadCase` reconstructs from a stored record. -/
structure LoadedView where
  evidenceList : List EvidenceArtifact
  report : String
  caseId : String
deriving DecidableEq

/-- `handleLoadCase` (src/App.tsx): hydrate the stored evidence and take the
stored report text and case id verbatim. -/
def handleLoadCase (mkUrl : Content → String) (record : CaseRecord) : LoadedView :=
  { evidenceList := record.evidence.map (hydrate mkUrl)
    report := record.report
    caseId := record.id }

/-- `onScanSuccess` (src/App.tsx): exact-equality lookup of the scanned seal
among the stored cases; a match loads that case with the verification
message, a non-match loads nothing and surfaces the tamper-or-unknown
warning. -/
def onScanSuccess (mkUrl : Content → String) (savedCases : List CaseRecord)
    (data : String) : Option LoadedView × String :=
  match savedCases.find? (fun c => c.caseHash == data) with
  | some m =>
    (some (handleLoadCase mkUrl m),
     "INTEGRITY VERIFIED: Matches Case \"" ++ m.name ++ "\" \nID: " ++ m.id)
  | none =>
    (none, "WARNING: TAMPER DETECTED OR UNKNOWN SEAL.\nHash: " ++ data)

/-- A concrete platform instance for witnesses and counterexamples: an
injective digest stand-in and constant locale renderings. -/
def demoPlatform : Platform :=
  { digest := fun s => "H(" ++ s ++ ")"
    localeString := fun _ => "LT"
    localeDateString := fun _ => "LD"
    localeTimeString := fun _ => "LTI"
    toFixed2 := fun q => toString q.num
    toFixed4 := fun q => toString q.num
    numToStr := fun q => toString q.num }

/-- A concrete object-URL allocator for witnesses. -/
def demoMkUrl : Content → String := fun _ => "blob:demo"

/-- A concrete device descriptor for witnesses. -/
def demoDevice : DeviceInfo :=
  { userAgent := "ua", platform := "pf", language := "en" }

/-- A minimal text artifact for witnesses and counterexamples. -/
def demoArtifact (filename : Option String) (mime : String) (ts : Int)
    (sess : Option GeoLocation) : EvidenceArtifact :=
  { id := "id000001"
    type := EvidenceType.Document
    content := Content.str "c"
    filename := filename
    mimeType := mime
    timestamp := ts
    gpsCoordinates := none
    sessionLocation := sess
    deviceInfo := demoDevice
    chainOfCustody := []
    cryptographicHash := "aa"
    previewUrl := none }

/-- An artifact located at the given session coordinates, for the
jurisdiction tests. -/
def locArt (lat lng : ℚ) : EvidenceArtifact :=
  demoArtifact (some "a.txt") "text/plain" 0 (some { lat := lat, lng := lng, accuracy := 1 })

/-- A stored case for the verification witnesses. -/
def demoRecord : CaseRecord :=
  { id := "id1", name := "n", timestamp := 0, report := "r", evidence := [], caseHash := "abc" }

/-- Claim C1, counterexample: at a concrete save, the seal the program
computes (digest of the raw concatenation of evidence hashes followed by the
report digest) differs from the specification's formula, in which the
concatenated evidence hashes are themselves digested first. -/
theorem C1_counterexample :
    (saveCase demoPlatform [] "cid" "n" "r"
        [demoArtifact (some "a.txt") "text/plain" 0 none] 0).1.caseHash
      ≠ caseSealSpecFormula demoPlatform "r"
          [demoArtifact (some "a.txt") "text/plain" 0 none] := by
  decide

/-- Claim C1, amended: the case seal computed at save time is
`digest(concat(evidence hashes) ++ digest(report))` — the concatenated
evidence hashes enter the final digest raw, without being pre-hashed into an
evidence digest. -/
theorem C1_seal_formula (p : Platform) (store : List CaseRecord)
    (caseId name report : String) (evidence : List EvidenceArtifact) (now : Int) :
    (saveCase p store caseId name report evidence now).1.caseHash
      = p.digest (String.join (evidence.map (fun e => e.cryptographicHash)) ++
          p.digest report) := rfl

set_option maxRecDepth 400000 in
/-- Claim C2, counterexample: identical evidence and case id, but two runs at
different clock instants, produce reports that are not byte-identical (the
future-timestamp flag of module 2 and the DATE header depend on the run's
`Date.now()`). -/
theorem C2_counterexample :
    runConstitutionalAnalysis demoPlatform
        [demoArtifact (some "a.txt") "text/plain" 1000000 none] "CASE" 0
      ≠ runConstitutionalAnalysis demoPlatform
          [demoArtifact (some "a.txt") "text/plain" 1000000 none] "CASE" 1000000 := by
  decide

/-- Claim C2, amended: the composed report and its appended self-hash are a
pure function of the evidence list, the case id, and the run's clock
instant; two runs agreeing on all three (and on the platform primitives)
are byte-identical with identical self-hashes. -/
theorem C2_determinism_at_fixed_time (p : Platform)
    (ev₁ ev₂ : List EvidenceArtifact) (cid₁ cid₂ : String) (now₁ now₂ : Int)
    (hev : ev₁ = ev₂) (hcid : cid₁ = cid₂) (hnow : now₁ = now₂) :
    runConstitutionalAnalysis p ev₁ cid₁ now₁ = runConstitutionalAnalysis p ev₂ cid₂ now₂ ∧
    p.digest (composeBody p ev₁ cid₁ now₁) = p.digest (composeBody p ev₂ cid₂ now₂) := by
  subst hev; subst hcid; subst hnow; exact ⟨rfl, rfl⟩

/-- Witness for C2's amended theorem at a concrete input. -/
theorem C2_witness :
    runConstitutionalAnalysis demoPlatform [] "C" 0 = runConstitutionalAnalysis demoPlatform [] "C" 0 ∧
    demoPlatform.digest (composeBody demoPlatform [] "C" 0)
      = demoPlatform.digest (composeBody demoPlatform [] "C" 0) :=
  C2_determinism_at_fixed_time demoPlatform [] [] "C" "C" 0 0 rfl rfl rfl

set_option maxRecDepth 400000 in
/-- Claim C3, counterexample: on an artifact named "x.pdf" declared as
"image/png", module 1 finds exactly one contradiction, yet the dishonesty
matrix's contradictions line of the composed report still states 0. -/
theorem C3_counterexample :
    brain1Count [demoArtifact (some "x.pdf") "image/png" 0 none] = 1 ∧
    contradictionLineOf (runConstitutionalAnalysis demoPlatform
        [demoArtifact (some "x.pdf") "image/png" 0 none] "C" 0)
      = some "Contradictions: 0 detected in metadata." := by
  exact ⟨by decide, by decide⟩

/-- Claim C3, amended: the contradictions line of the dishonesty-detection
matrix is the fixed literal "Contradictions: 0 detected in metadata." for
every evidence list; it agrees with module 1's count only when that count is
zero. -/
theorem C3_contradictions_line_constant (p : Platform)
    (evidence : List EvidenceArtifact) (caseId : String) (now : Int) :
    ∃ a b, runConstitutionalAnalysis p evidence caseId now
      = a ++ "Contradictions: 0 detected in metadata.\n" ++ b := by
  refine ⟨headerBlock p caseId now ++ complianceBlock ++ manifestBlock evidence ++
      brainsBlock p now evidence ++ tripleVerificationBlock ++
      ("4. DISHONESTY DETECTION MATRIX\n" ++ "------------------------------\n"),
    ("Omissions: Cannot determine without external reference.\n" ++
      "Tampering: None detected by Brain 2.\n\n") ++
      "SEALED ORIGINAL - VERUM OMNIS\n" ++
      ("SHA-512:" ++ p.digest (composeBody p evidence caseId now) ++ "\n"), ?_⟩
  simp only [runConstitutionalAnalysis, composeBody, dishonestyMatrixBlock,
    String.append_assoc]

/-- Claim C4: the composed report is the body followed by a terminal
`SHA-512:` line whose digest is taken over exactly the body — every
character preceding the terminal line and nothing of the line itself — and
the body ends in a newline, so the anchor stands on its own line. -/
theorem C4_selfhash_terminal (p : Platform) (evidence : List EvidenceArtifact)
    (caseId : String) (now : Int) :
    ∃ body pre,
      runConstitutionalAnalysis p evidence caseId now
        = body ++ ("SHA-512:" ++ p.digest body ++ "\n") ∧
      body = pre ++ "SEALED ORIGINAL - VERUM OMNIS\n" := by
  refine ⟨composeBody p evidence caseId now,
    headerBlock p caseId now ++ complianceBlock ++ manifestBlock evidence ++
      brainsBlock p now evidence ++ tripleVerificationBlock ++ dishonestyMatrixBlock,
    rfl, ?_⟩
  simp only [composeBody, String.append_assoc]

/-- Claim C5, counterexample: sealing-and-saving a case built from a
concrete ingested artifact stores the evidence list verbatim, and no custody
entry with action "SEALED" (or "Sealed") exists on any stored artifact — no
final sealed entry is appended at seal time. -/
theorem C5_counterexample :
    ((handleSaveCase demoPlatform [] "cid" "rep"
        [ingestFile "id1" "h1" "u1" { name := "a.txt", mimeType := "text/plain", size := 3 }
          none demoDevice 0] 5).1.evidence
      = [ingestFile "id1" "h1" "u1" { name := "a.txt", mimeType := "text/plain", size := 3 }
          none demoDevice 0]) ∧
    ((handleSaveCase demoPlatform [] "cid" "rep"
        [ingestFile "id1" "h1" "u1" { name := "a.txt", mimeType := "text/plain", size := 3 }
          none demoDevice 0] 5).1.evidence.all
      (fun e => e.chainOfCustody.all
        (fun en => en.action != "SEALED" && en.action != "Sealed"))) = true := by
  exact ⟨rfl, by decide⟩

/-- Claim C5, amended: sealing appends no custody entry at all — the saved
record carries the evidence list (and hence every chain of custody)
verbatim; custody entries come only from ingestion, which opens each chain
with the single "CAPTURED" entry. -/
theorem C5_seal_appends_no_custody (p : Platform) (store : List CaseRecord)
    (caseId report : String) (evidence : List EvidenceArtifact) (now : Int) :
    (handleSaveCase p store caseId report evidence now).1.evidence = evidence ∧
    ∀ (id hash url : String) (f : FileUpload) (sess : Option GeoLocation)
      (dev : DeviceInfo) (now' : Int),
      (ingestFile id hash url f sess dev now').chainOfCustody
        = [{ timestamp := now', action := "CAPTURED", actor := "USER",
             hash := hash, location := sess, notes := none }] :=
  ⟨rfl, fun _ _ _ _ _ _ _ => rfl⟩

/-- Claim C6, counterexample: saving again under the same case id replaces
the stored record wholesale — after the second save the report text stored
under "id1" is "r2", no longer the originally persisted "r1". -/
theorem C6_counterexample :
    ((saveCase demoPlatform [] "id1" "n" "r1" [] 0).2.map (fun c => c.report) = ["r1"]) ∧
    ((saveCase demoPlatform (saveCase demoPlatform [] "id1" "n" "r1" [] 0).2
        "id1" "n" "r2" [] 5).2.map (fun c => c.report) = ["r2"]) := by
  exact ⟨by decide, by decide⟩

/-- Claim C6, amended: loading a stored case reconstructs only the transient
preview handle — report text, case id and every other evidence field come
back verbatim, and restoring an artifact's original `previewUrl` recovers it
exactly; moreover saving under a different case id leaves every stored
record untouched. (Re-saving under the same id, however, replaces the
record, as the counterexample shows.) -/
theorem C6_load_reconstructs_transients_only (mkUrl : Content → String)
    (record : CaseRecord) :
    (handleLoadCase mkUrl record).report = record.report ∧
    (handleLoadCase mkUrl record).caseId = record.id ∧
    (handleLoadCase mkUrl record).evidenceList = record.evidence.map (hydrate mkUrl) ∧
    (∀ e : EvidenceArtifact, { hydrate mkUrl e with previewUrl := e.previewUrl } = e) ∧
    (∀ (p : Platform) (store : List CaseRecord) (caseId name report : String)
        (evidence : List EvidenceArtifact) (now : Int) (c : CaseRecord),
        c ∈ store → c.id ≠ caseId →
        c ∈ (saveCase p store caseId name report evidence now).2) := by
  refine ⟨rfl, rfl, rfl, fun e => rfl, ?_⟩
  intro p store caseId name report evidence now c hc hne
  have hid : (c.id == caseId) = false := beq_eq_false_iff_ne.mpr hne
  unfold saveCase putRecord
  by_cases h : store.any (fun x => x.id == (mkCaseRecord p caseId name report evidence now).id)
  · simp only [h, if_true]
    have hfix : (fun x => if x.id == (mkCaseRecord p caseId name report evidence now).id
        then (mkCaseRecord p caseId name report evidence now) else x) c = c := by
      simp only [mkCaseRecord, hid, Bool.false_eq_true, if_false]
    exact hfix ▸ List.mem_map_of_mem _ hc
  · simp only [h, if_false]
    exact List.mem_append_left _ hc

/-- Witness for C6's amended theorem at a concrete record and store. -/
theorem C6_witness :
    (handleLoadCase demoMkUrl demoRecord).report = demoRecord.report ∧
    demoRecord ∈ (saveCase demoPlatform [demoRecord] "other" "n" "r" [] 0).2 := by
  have h := C6_load_reconstructs_transients_only demoMkUrl demoRecord
  exact ⟨h.1, h.2.2.2.2 demoPlatform [demoRecord] "other" "n" "r" [] 0 demoRecord
    (by simp) (by decide)⟩

/-- Claim C7: seal verification is exact string equality against the stored
seals — when no stored case's seal equals the candidate, nothing is loaded
and the explicit tamper-or-unknown warning (naming the candidate) is
produced; when a case is loaded, it is a stored case whose seal equals the
candidate exactly, loaded through `handleLoadCase`; conversely, a candidate
equal to some stored case's seal does load a matching stored case, with the
verification message naming it, and when exactly one stored case matches,
that exact case is the one loaded. -/
theorem C7_exact_seal_verification (mkUrl : Content → String)
    (cases : List CaseRecord) (data : String) :
    ((∀ c ∈ cases, c.caseHash ≠ data) →
      onScanSuccess mkUrl cases data
        = (none, "WARNING: TAMPER DETECTED OR UNKNOWN SEAL.\nHash: " ++ data)) ∧
    (∀ v msg, onScanSuccess mkUrl cases data = (some v, msg) →
      ∃ c, c ∈ cases ∧ c.caseHash = data ∧ v = handleLoadCase mkUrl c) ∧
    ((∃ c ∈ cases, c.caseHash = data) →
      ∃ m, m ∈ cases ∧ m.caseHash = data ∧
        onScanSuccess mkUrl cases data
          = (some (handleLoadCase mkUrl m),
             "INTEGRITY VERIFIED: Matches Case \"" ++ m.name ++ "\" \nID: " ++ m.id)) ∧
    (∀ c ∈ cases, c.caseHash = data →
      (∀ c' ∈ cases, c'.caseHash = data → c' = c) →
      onScanSuccess mkUrl cases data
        = (some (handleLoadCase mkUrl c),
           "INTEGRITY VERIFIED: Matches Case \"" ++ c.name ++ "\" \nID: " ++ c.id)) := by
  refine ⟨?_, ?_, ?_, ?_⟩
  · intro hno
    unfold onScanSuccess
    cases hfind : List.find? (fun c => c.caseHash == data) cases with
    | none => rfl
    | some m =>
      have hm : m.caseHash = data := by simpa using List.find?_some hfind
      exact absurd hm (hno m (List.mem_of_find?_eq_some hfind))
  · intro v msg hscan
    unfold onScanSuccess at hscan
    cases hfind : List.find? (fun c => c.caseHash == data) cases with
    | none => rw [hfind] at hscan; cases hscan
    | some m =>
      rw [hfind] at hscan
      have hv : some (handleLoadCase mkUrl m) = some v := congrArg Prod.fst hscan
      have hv' : handleLoadCase mkUrl m = v := by injection hv
      exact ⟨m, List.mem_of_find?_eq_some hfind,
        by simpa using List.find?_some hfind, hv'.symm⟩
  · rintro ⟨c, hc, hch⟩
    cases hfind : List.find? (fun c => c.caseHash == data) cases with
    | none =>
      exact absurd (by simpa using hch)
        (by simpa using List.find?_eq_none.mp hfind c hc)
    | some m =>
      refine ⟨m, List.mem_of_find?_eq_some hfind,
        by simpa using List.find?_some hfind, ?_⟩
      unfold onScanSuccess
      rw [hfind]
  · intro c hc hch huniq
    cases hfind : List.find? (fun c => c.caseHash == data) cases with
    | none =>
      exact absurd (by simpa using hch)
        (by simpa using List.find?_eq_none.mp hfind c hc)
    | some m =>
      have hm : m.caseHash = data := by simpa using List.find?_some hfind
      have hmc : m = c := huniq m (List.mem_of_find?_eq_some hfind) hm
      subst hmc
      unfold onScanSuccess
      rw [hfind]

/-- Witness for C7 at a concrete one-case store: a candidate that is a
strict prefix of the stored seal is rejected with the warning, while the
exactly-equal candidate loads that stored case with the verification
message. -/
theorem C7_witness :
    onScanSuccess demoMkUrl [demoRecord] "ab"
      = (none, "WARNING: TAMPER DETECTED OR UNKNOWN SEAL.\nHash: " ++ "ab") ∧
    onScanSuccess demoMkUrl [demoRecord] "abc"
      = (some (handleLoadCase demoMkUrl demoRecord),
         "INTEGRITY VERIFIED: Matches Case \"" ++ demoRecord.name ++ "\" \nID: " ++
           demoRecord.id) := by
  constructor
  · exact (C7_exact_seal_verification demoMkUrl [demoRecord] "ab").1 (by decide)
  · exact (C7_exact_seal_verification demoMkUrl [demoRecord] "abc").2.2.2 demoRecord
      (List.mem_singleton.mpr rfl) rfl
      (fun c' hc' _ => List.mem_singleton.mp hc')

/-- Claim C8: module 7 maps the first-located session coordinates by the
fixed strict bounding boxes — (22,26)×(51,57) to the UAE with its statute
citation, (−35,−22)×(16,33) to South Africa with its citation, anything
else to INTERNATIONAL / UNKNOWN reporting the rendered latitude, and no
located artifact to UNDETERMINED; in particular (24,54) maps to the UAE,
(−30,25) to South Africa, and (0,0) to INTERNATIONAL / UNKNOWN. -/
theorem C8_jurisdiction_mapping (p : Platform) (evidence : List EvidenceArtifact) :
    (brain7Loc evidence = none →
      runBrain7 p evidence
        = "BRAIN 7 (LEGAL MAPPING): ACTIVE\n" ++ "Jurisdiction: UNDETERMINED (No GPS)\n") ∧
    (∀ loc : GeoLocation, brain7Loc evidence = some loc →
      ((22 < loc.lat ∧ loc.lat < 26 ∧ 51 < loc.lng ∧ loc.lng < 57) →
        runBrain7 p evidence = "BRAIN 7 (LEGAL MAPPING): ACTIVE\n" ++
          ("Detected Jurisdiction: UNITED ARAB EMIRATES (Based on Coords)\n" ++
            "Relevant Laws: Federal Law 32/2021 (Cybercrime), Article 84.\n")) ∧
      ((-35 < loc.lat ∧ loc.lat < -22 ∧ 16 < loc.lng ∧ loc.lng < 33) →
        runBrain7 p evidence = "BRAIN 7 (LEGAL MAPPING): ACTIVE\n" ++
          ("Detected Jurisdiction: SOUTH AFRICA (Based on Coords)\n" ++
            "Relevant Laws: ECT Act 25 of 2002.\n")) ∧
      (¬(22 < loc.lat ∧ loc.lat < 26 ∧ 51 < loc.lng ∧ loc.lng < 57) →
        ¬(-35 < loc.lat ∧ loc.lat < -22 ∧ 16 < loc.lng ∧ loc.lng < 33) →
        runBrain7 p evidence = "BRAIN 7 (LEGAL MAPPING): ACTIVE\n" ++
          ("Detected Jurisdiction: INTERNATIONAL / UNKNOWN (Lat: " ++
            p.toFixed2 loc.lat ++ ")\n"))) ∧
    (runBrain7 p [locArt 24 54] = "BRAIN 7 (LEGAL MAPPING): ACTIVE\n" ++
      ("Detected Jurisdiction: UNITED ARAB EMIRATES (Based on Coords)\n" ++
        "Relevant Laws: Federal Law 32/2021 (Cybercrime), Article 84.\n")) ∧
    (runBrain7 p [locArt (-30) 25] = "BRAIN 7 (LEGAL MAPPING): ACTIVE\n" ++
      ("Detected Jurisdiction: SOUTH AFRICA (Based on Coords)\n" ++
        "Relevant Laws: ECT Act 25 of 2002.\n")) ∧
    (runBrain7 p [locArt 0 0] = "BRAIN 7 (LEGAL MAPPING): ACTIVE\n" ++
      ("Detected Jurisdiction: INTERNATIONAL / UNKNOWN (Lat: " ++
        p.toFixed2 0 ++ ")\n")) := by
  refine ⟨?_, ?_, ?_, ?_, ?_⟩
  · intro h
    unfold runBrain7
    rw [h]
  · intro loc h
    refine ⟨?_, ?_, ?_⟩
    · intro hbox
      unfold runBrain7
      simp only [h]
      rw [if_pos hbox]
    · intro hbox
      unfold runBrain7
      simp only [h]
      rw [if_neg ?hne, if_pos hbox]
      case hne =>
        rintro ⟨h1, -⟩
        have := hbox.2.1
        linarith
    · intro h1 h2
      unfold runBrain7
      simp only [h]
      rw [if_neg h1, if_neg h2]
  · have h24 : brain7Loc [locArt 24 54] = some { lat := 24, lng := 54, accuracy := 1 } := rfl
    unfold runBrain7
    simp only [h24]
    rw [if_pos (by norm_num)]
  · have h30 : brain7Loc [locArt (-30) 25] = some { lat := -30, lng := 25, accuracy := 1 } := rfl
    unfold runBrain7
    simp only [h30]
    rw [if_neg (by norm_num), if_pos (by norm_num)]
  · have h0 : brain7Loc [locArt 0 0] = some { lat := 0, lng := 0, accuracy := 1 } := rfl
    unfold runBrain7
    simp only [h0]
    rw [if_neg (by norm_num), if_neg (by norm_num)]

/-- Witness for C8 at a concrete platform and the concrete UAE coordinates. -/
theorem C8_witness :
    runBrain7 demoPlatform [locArt 24 54] = "BRAIN 7 (LEGAL MAPPING): ACTIVE\n" ++
      ("Detected Jurisdiction: UNITED ARAB EMIRATES (Based on Coords)\n" ++
        "Relevant Laws: Federal Law 32/2021 (Cybercrime), Article 84.\n") :=
  ((C8_jurisdiction_mapping demoPlatform [locArt 24 54]).2.1
    { lat := 24, lng := 54, accuracy := 1 } rfl).1 (by norm_num)

/-- Claim C9: every stage is a total function of its inputs — in particular,
on the empty evidence set module 5 yields the "No data." placeholder, the
manifest section is empty, the full composition still contains the
placeholder, and sealing completes, reducing to the digest of the report
digest alone; artifacts with a missing filename or empty MIME type flow
through modules 1 and 2 on their defined fallback strings. -/
theorem C9_empty_and_degenerate_inputs (p : Platform) (caseId name report : String)
    (store : List CaseRecord) (now : Int) :
    runBrain5 p [] = "BRAIN 5 (TIMELINE & GEO): ACTIVE\n" ++ "No data.\n" ∧
    manifestEntries [] = "" ∧
    (∃ a b, runConstitutionalAnalysis p [] caseId now = a ++ "No data.\n" ++ b) ∧
    (saveCase p store caseId name report [] now).1.caseHash = p.digest (p.digest report) ∧
    runBrain2 0 [demoArtifact none "" 0 none]
      = "BRAIN 2 (FORENSICS): ACTIVE\n> Artifact: undefined\n  SIZE: N/A bytes\n  HASH: aa...\n  TYPE: \n  INTEGRITY: PRESERVED\n\n" ∧
    brain1Line (demoArtifact none "" 0 none) = none := by
  refine ⟨rfl, rfl, ?_, rfl, by decide, rfl⟩
  refine ⟨headerBlock p caseId now ++ complianceBlock ++ manifestBlock [] ++
      ("2. 9-BRAIN ARCHITECTURE OUTPUTS\n" ++ "-------------------------------\n") ++
      (runBrain1 [] ++ "\n") ++ (runBrain2 now [] ++ "\n") ++ (runBrain3 [] ++ "\n") ++
      (runBrain4 ++ "\n") ++ "BRAIN 5 (TIMELINE & GEO): ACTIVE\n",
    "\n" ++ (runBrain6 ++ "\n") ++ (runBrain7 p [] ++ "\n") ++ (runBrain8 [] ++ "\n") ++
      (runBrain9 ++ "\n\n") ++ tripleVerificationBlock ++ dishonestyMatrixBlock ++
      "SEALED ORIGINAL - VERUM OMNIS\n" ++
      ("SHA-512:" ++ p.digest (composeBody p [] caseId now) ++ "\n"), ?_⟩
  have h5 : runBrain5 p [] = "BRAIN 5 (TIMELINE & GEO): ACTIVE\n" ++ "No data.\n" := rfl
  simp only [runConstitutionalAnalysis, composeBody, brainsBlock, h5, String.append_assoc]

/-- Claim C10: modules 5 and 7 select the same session location — the
filter-then-head scan of module 5 and the first-match scan of module 7
agree on every evidence list, so the two jurisdiction passes can never
reference different artifacts. -/
theorem C10_modules_select_same_location (evidence : List EvidenceArtifact) :
    brain5Loc evidence = brain7Loc evidence := by
  induction evidence with
  | nil => rfl
  | cons a t ih =>
    by_cases h : a.sessionLocation.isSome = true
    · simp [brain5Loc, brain7Loc, sessionLocs, List.filter_cons, List.find?_cons, h]
    · simp only [brain5Loc, brain7Loc, sessionLocs, List.filter_cons, List.find?_cons, h,
        if_false, Bool.false_eq_true] at ih ⊢
      exact ih

end VerumOmnis
